import Mathlib

/-!
Verification of the YouTube downloader web service (`main.py`).

The development shallowly embeds the pure logic of the service:

* `YouTubeRealDownloader.extract_video_id` — the URL normalizer, embedded as an
  exact model of the Python `re.search`/`re.match` calls over `List Char`
  (an ordered scan of candidate positions, each matching a literal marker
  followed by exactly eleven identifier characters; the anchored bare-token
  check models CPython `$`, which also matches just before one trailing
  newline).
* the chunked byte relay of the `download_direct` / `stream_video` endpoints;
* Python values (`PyVal`) with the truthiness, equality, `in`, `get`,
  str()-formatting and comparison semantics needed by
  `YouTubeRealDownloader.parse_format` and the formats loop of
  `YouTubeRealDownloader.get_video_info`, where dynamic type errors are
  rendered as `Except.error` (a raised exception);
* the request handlers, with the external `yt_dlp.extract_info` call and the
  outbound HTTP response abstracted as parameters.
-/

set_option maxHeartbeats 1600000

/-- Character class of `[a-zA-Z0-9_-]`, the identifier class used by every
pattern in `extract_video_id`. -/
def isIdChar (c : Char) : Bool :=
  (('a' ≤ c && c ≤ 'z') || ('A' ≤ c && c ≤ 'Z') || ('0' ≤ c && c ≤ '9')
    || c = '_' || c = '-')

/-- Literal-prefix matcher: if `pat` is a prefix of `s`, return the remainder. -/
def dropPref : List Char → List Char → Option (List Char)
  | [], s => some s
  | _ :: _, [] => none
  | p :: ps, c :: cs => if p = c then dropPref ps cs else none

/-- One candidate position of `re.search` for a pattern of the shape
`(?:marker)([a-zA-Z0-9_-]{11})`: the literal marker must match here, followed
by exactly eleven identifier characters, which are captured. -/
def tryAt (pat s : List Char) : Option (List Char) :=
  match dropPref pat s with
  | none => none
  | some t =>
    let cap := t.take 11
    if cap.length = 11 && cap.all isIdChar then some cap else none

/-- `re.search` for `(?:pat)([a-zA-Z0-9_-]{11})`: try every position from the
left, returning the first capture. -/
def searchPat (pat : List Char) (s : List Char) : Option (List Char) :=
  match tryAt pat s with
  | some r => some r
  | none =>
    match s with
    | [] => none
    | _ :: rest => searchPat pat rest

/-- The anchored check `re.match(r'^[a-zA-Z0-9_-]{11}$', url)`.  CPython `$`
matches at the end of the string or just before a single trailing newline, so
an 11-identifier-character string optionally followed by one `'\n'` matches. -/
def bareMatch (url : List Char) : Bool :=
  (url.take 11).length = 11 && (url.take 11).all isIdChar &&
    (url.drop 11 = [] || url.drop 11 = ['\n'])

/-- Core of `YouTubeRealDownloader.extract_video_id`: the four `re.search`
patterns are tried in order, then the anchored bare-token `re.match`; on the
bare match the *whole* input string is returned (`return url`). -/
def extractCore (url : List Char) : Option (List Char) :=
  match searchPat "youtube.com/watch?v=".data url with
  | some r => some r
  | none =>
  match searchPat "youtu.be/".data url with
  | some r => some r
  | none =>
  match searchPat "youtube.com/embed/".data url with
  | some r => some r
  | none =>
  match searchPat "youtube.com/shorts/".data url with
  | some r => some r
  | none =>
  if bareMatch url then some url else none

namespace YouTubeRealDownloader

/-- `YouTubeRealDownloader.extract_video_id` on strings. -/
def extract_video_id (url : String) : Option String :=
  (extractCore url.data).map String.mk

end YouTubeRealDownloader

/-- Whether any of the five matchers of `extract_video_id` matches the input:
used to state that the normalizer fails exactly when no pattern matches. -/
def knownPatternMatch (url : List Char) : Bool :=
  (searchPat "youtube.com/watch?v=".data url).isSome ||
  (searchPat "youtu.be/".data url).isSome ||
  (searchPat "youtube.com/embed/".data url).isSome ||
  (searchPat "youtube.com/shorts/".data url).isSome ||
  bareMatch url

/-- Iteration core of `r.iter_content(chunk_size=n)`; `fuel` only bounds the
number of loop turns so the recursion is structural — with `0 < n` any
`fuel ≥ xs.length` (as used below) never runs out, since every turn consumes
at least one byte.  (`n = 0` never occurs: both relays fix
`chunk_size=8192`.) -/
def chunksGo (n : Nat) : Nat → List Nat → List (List Nat)
  | _, [] => []
  | 0, xs => [xs]
  | Nat.succ fuel, xs =>
    if n = 0 then [xs] else xs.take n :: chunksGo n fuel (xs.drop n)

/-- The chunking performed by `r.iter_content(chunk_size=n)`: the upstream
body split into consecutive chunks of `n` bytes, the last one possibly
shorter. -/
def chunks (n : Nat) (xs : List Nat) : List (List Nat) :=
  chunksGo n xs.length xs

/-- An upstream HTTP response, as seen by the relay endpoints. -/
structure HttpResp where
  status : Nat
  body : List Nat
deriving DecidableEq, Repr

/-- The `generate` loop of `download_direct` (with `r.raise_for_status()`,
which raises `HTTPError` exactly for status codes in `[400, 600)`, then yields
8192-byte chunks of the body). -/
def download_generate (up : HttpResp) : Except String (List (List Nat)) :=
  if 400 ≤ up.status ∧ up.status < 600 then Except.error "HTTPError"
  else Except.ok (chunks 8192 up.body)

/-- The `generate` loop of `stream_video`: yields 8192-byte chunks of the body
with no status check at all. -/
def stream_generate (up : HttpResp) : List (List Nat) :=
  chunks 8192 up.body

/-- Python values as they occur in the yt-dlp info dictionaries: `None`, int,
str, bool, dict and list.  Dynamic type errors raised by an operation are
rendered as `Except.error`. -/
inductive PyVal where
  | pnone : PyVal
  | pint : Int → PyVal
  | pstr : String → PyVal
  | pbool : Bool → PyVal
  | pdict : List (String × PyVal) → PyVal
  | plist : List PyVal → PyVal

open PyVal

/-- Python truthiness: `None`, `0`, `""`, `False`, `{}` and `[]` are falsy. -/
def pyTruthy : PyVal → Bool
  | pnone => false
  | pint n => n != 0
  | pstr s => s != ""
  | pbool b => b
  | pdict es => !es.isEmpty
  | plist xs => !xs.isEmpty

mutual

/-- Structural equality of Python values of the same type. -/
def pyBeq : PyVal → PyVal → Bool
  | pnone, pnone => true
  | pint a, pint b => a == b
  | pstr a, pstr b => a == b
  | pbool a, pbool b => a == b
  | pdict a, pdict b => pyBeqEntries a b
  | plist a, plist b => pyBeqElems a b
  | _, _ => false

/-- Structural equality of dict entry lists. -/
def pyBeqEntries : List (String × PyVal) → List (String × PyVal) → Bool
  | [], [] => true
  | (k, v) :: rest, (k', v') :: rest' => k == k' && pyBeq v v' && pyBeqEntries rest rest'
  | _, _ => false

/-- Structural equality of list elements. -/
def pyBeqElems : List PyVal → List PyVal → Bool
  | [], [] => true
  | x :: rest, x' :: rest' => pyBeq x x' && pyBeqElems rest rest'
  | _, _ => false

end

/-- Python `==`.  Ints and bools compare by numeric value (`True == 1`);
containers compare structurally (dict comparison is approximated by entry-list
equality; no format dictionary in this code compares dict values). -/
def pyEq (a b : PyVal) : Bool :=
  match a, b with
  | pint x, pbool y => x == (if y then 1 else 0)
  | pbool x, pint y => (if x then (1 : Int) else 0) == y
  | _, _ => pyBeq a b

/-- First dict entry with the given key. -/
def dictFind (es : List (String × PyVal)) (key : String) : Option (String × PyVal) :=
  es.find? (fun e => e.fst == key)

/-- Value of a dict key, or a default when absent. -/
def dictLookup (es : List (String × PyVal)) (key : String) (dflt : PyVal) : PyVal :=
  match dictFind es key with
  | some e => e.snd
  | none => dflt

/-- `d.get(key, default)` — an `AttributeError` on anything but a dict.  When
the key is present its value is returned even if falsy. -/
def pyGet (v : PyVal) (key : String) (dflt : PyVal) : Except String PyVal :=
  match v with
  | pdict es => Except.ok (dictLookup es key dflt)
  | _ => Except.error "AttributeError: no attribute get"

/-- Subscription `d[key]` — a `TypeError`/`KeyError` on anything but a dict
holding the key. -/
def pyIndex (v : PyVal) (key : String) : Except String PyVal :=
  match v with
  | pdict es =>
    match dictFind es key with
    | some e => Except.ok e.snd
    | none => Except.error "KeyError"
  | _ => Except.error "TypeError: not subscriptable"

/-- Substring test on char lists, used for Python `needle in haystack` with a
string needle. -/
def subSearch (pat : List Char) (s : List Char) : Bool :=
  match dropPref pat s with
  | some _ => true
  | none =>
    match s with
    | [] => false
    | _ :: rest => subSearch pat rest

/-- Python `needle in v` for a string needle: key containment for dicts,
substring for strings, element equality for lists, `TypeError` otherwise. -/
def pyInOp (needle : String) (v : PyVal) : Except String Bool :=
  match v with
  | pdict es => Except.ok (es.any (fun e => e.fst == needle))
  | pstr s => Except.ok (subSearch needle.data s.data)
  | plist xs => Except.ok (xs.any (fun x => pyEq x (pstr needle)))
  | _ => Except.error "TypeError: argument of type is not iterable"

/-- Iteration `for x in v`: list elements; a string yields its characters as
one-character strings; a dict yields its keys; `TypeError` otherwise. -/
def pyIterate (v : PyVal) : Except String (List PyVal) :=
  match v with
  | plist xs => Except.ok xs
  | pstr s => Except.ok (s.data.map (fun c => pstr (String.mk [c])))
  | pdict es => Except.ok (es.map (fun e => pstr e.fst))
  | _ => Except.error "TypeError: not iterable"

/-- The numeric value of an int-like Python value (`bool` is an `int`
subclass). -/
def pyIntVal : PyVal → Option Int
  | pint n => some n
  | pbool b => some (if b then 1 else 0)
  | _ => none

/-- Python `v >= n` against an int literal: `TypeError` unless `v` is
int-like.  (Every comparison in `parse_format` has an int literal on the
right.) -/
def pyGEInt (v : PyVal) (n : Int) : Except String Bool :=
  match pyIntVal v with
  | some x => Except.ok (n ≤ x)
  | none => Except.error "TypeError: unorderable types"

/-- Python unary minus, as applied to the sort-key components: `TypeError`
unless the value is int-like. -/
def pyNegInt (v : PyVal) : Except String Int :=
  match pyIntVal v with
  | some x => Except.ok (-x)
  | none => Except.error "TypeError: bad operand type for unary minus"

/-- Comma-separated join, as in Python container reprs. -/
def commaJoin : List String → String
  | [] => ""
  | [s] => s
  | s :: rest => s ++ ", " ++ commaJoin rest

mutual

/-- Python `repr`.  String quoting is the naive single-quote form (no
escaping); container values never reach a format string in this code. -/
def pyRepr : PyVal → String
  | pnone => "None"
  | pint n => toString n
  | pstr s => "'" ++ s ++ "'"
  | pbool b => if b then "True" else "False"
  | pdict es => "\x7b" ++ commaJoin (reprEntries es) ++ "\x7d"
  | plist xs => "[" ++ commaJoin (reprElems xs) ++ "]"

/-- `repr` of each dict entry, `'key': value`. -/
def reprEntries : List (String × PyVal) → List String
  | [] => []
  | e :: rest => ("'" ++ e.fst ++ "': " ++ pyRepr e.snd) :: reprEntries rest

/-- `repr` of each list element. -/
def reprElems : List PyVal → List String
  | [] => []
  | x :: rest => pyRepr x :: reprElems rest

end

/-- Python `str()`, as used by f-string interpolation: identity on strings,
`repr` otherwise. -/
def pyStrOf : PyVal → String
  | pstr s => s
  | v => pyRepr v

/-- Python `f"{num/den:.1f}"` for the positive size quotients in
`parse_format`: one decimal digit, ties to even.  (The quotient is embedded as
an exact rational; the binary64 detour of CPython agrees on all realistic
sizes and no claim depends on the size string.) -/
def formatFloat1 (num den : Nat) : String :=
  let n10 := num * 10
  let q := n10 / den
  let r := n10 % den
  let q :=
    if den < 2 * r then q + 1
    else if 2 * r < den then q
    else if q % 2 = 0 then q else q + 1
  toString (q / 10) ++ "." ++ toString (q % 10)

/-- The value of an int-like Python value, used where `parse_format` compares
`filesize` against int literals (the first `>=` raises `TypeError` on anything
else). -/
def intOf (v : PyVal) : Int :=
  match pyIntVal v with
  | some n => n
  | none => 0

/-- The dictionary built and returned by `parse_format` (its keys as fields;
`quality` can be a non-string when a truthy non-string `format_note` is copied
verbatim; `type` and `size` are always built as strings). -/
structure Descriptor where
  format_id : PyVal
  quality : PyVal
  type : String
  extension : PyVal
  size : String
  has_video : Bool
  has_audio : Bool
  fps : PyVal
  width : PyVal
  height : PyVal
  tbr : PyVal
  vcodec : PyVal
  acodec : PyVal
  url : PyVal
  is_googlevideo : Bool
  has_drm : PyVal

/-- The `# Determine quality` block of `parse_format`: a truthy
`format_note` verbatim, else `fmt.get('height')` rechecked via `fmt['height']`
as `"<height>p"`, else `fmt.get('tbr')` via `fmt['tbr']` as `"<tbr>kbps"`,
else `'Unknown'`. -/
def quality_of (fmt : PyVal) (format_note : PyVal) : Except String PyVal :=
  if pyTruthy format_note then Except.ok format_note
  else do
    let h ← pyGet fmt "height" pnone
    if pyTruthy h then do
      let hv ← pyIndex fmt "height"
      Except.ok (pstr (pyStrOf hv ++ "p"))
    else do
      let t ← pyGet fmt "tbr" pnone
      if pyTruthy t then do
        let tv ← pyIndex fmt "tbr"
        Except.ok (pstr (pyStrOf tv ++ "kbps"))
      else Except.ok (pstr "Unknown")

/-- The `# Format size` block of `parse_format`: the first `>=` comparison
raises `TypeError` unless `filesize` is int-like, after which every branch is
pure arithmetic on its value. -/
def size_of (filesize : PyVal) : Except String String :=
  if pyTruthy filesize then
    match pyIntVal filesize with
    | none => Except.error "TypeError: unorderable types"
    | some v =>
      if 1024 ^ 3 ≤ v then Except.ok (formatFloat1 v.toNat (1024 ^ 3) ++ " GB")
      else if 1024 ^ 2 ≤ v then Except.ok (formatFloat1 v.toNat (1024 ^ 2) ++ " MB")
      else if 1024 ≤ v then Except.ok (formatFloat1 v.toNat 1024 ++ " KB")
      else Except.ok (pyStrOf filesize ++ " B")
  else Except.ok "Unknown"

/-- The googlevideo check of `parse_format`:
`'googlevideo.com' in url if url else False`. -/
def googlevideo_of (url : PyVal) : Except String Bool :=
  if pyTruthy url then pyInOp "googlevideo.com" url else Except.ok false

namespace YouTubeRealDownloader

/-- `YouTubeRealDownloader.parse_format`, transcribed statement by statement
(its commented blocks as the helper functions above); a raised exception is
`Except.error`. -/
def parse_format (fmt : PyVal) : Except String Descriptor := do
  let format_id ← pyGet fmt "format_id" (pstr "")
  let format_note ← pyGet fmt "format_note" (pstr "")
  let ext ← pyGet fmt "ext" (pstr "")
  let fsDefault ← pyGet fmt "filesize_approx" (pint 0)
  let filesize ← pyGet fmt "filesize" fsDefault
  let url ← pyGet fmt "url" (pstr "")
  let quality ← quality_of fmt format_note
  let vc ← pyGet fmt "vcodec" pnone
  let ac ← pyGet fmt "acodec" pnone
  let has_video := !pyEq vc (pstr "none")
  let has_audio := !pyEq ac (pstr "none")
  let format_type :=
    if has_video && has_audio then "video+audio"
    else if has_video then "video"
    else "audio"
  let size ← size_of filesize
  let is_googlevideo ← googlevideo_of url
  let fps ← pyGet fmt "fps" (pint 0)
  let width ← pyGet fmt "width" (pint 0)
  let height ← pyGet fmt "height" (pint 0)
  let tbr ← pyGet fmt "tbr" (pint 0)
  let vcodec ← pyGet fmt "vcodec" (pstr "")
  let acodec ← pyGet fmt "acodec" (pstr "")
  let has_drm ← pyGet fmt "has_drm" (pbool false)
  Except.ok
    { format_id := format_id, quality := quality, type := format_type,
      extension := ext, size := size, has_video := has_video,
      has_audio := has_audio, fps := fps, width := width, height := height,
      tbr := tbr, vcodec := vcodec, acodec := acodec, url := url,
      is_googlevideo := is_googlevideo, has_drm := has_drm }

end YouTubeRealDownloader

/-- The formats loop of `get_video_info` (lines 108–113): entries with a falsy
`url` are skipped; `parse_format` always returns a non-empty dict, so the
`if format_info:` check always passes. -/
def formats_loop : List PyVal → Except String (List Descriptor)
  | [] => Except.ok []
  | f :: rest => do
    let u ← pyGet f "url" pnone
    if pyTruthy u then do
      let d ← YouTubeRealDownloader.parse_format f
      let ds ← formats_loop rest
      Except.ok (d :: ds)
    else formats_loop rest

/-- Rank of a descriptor type string in the sort key:
`0 if x['type'] == 'video+audio' else (1 if x['type'] == 'video' else 2)`. -/
def typeRank (t : String) : Int :=
  if t = "video+audio" then 0 else if t = "video" then 1 else 2

/-- The sort key of `formats.sort`: the `height` and `tbr` keys of a
descriptor dict are always present, so `x.get('height', 0)` reads the stored
field; unary minus raises unless the value is int-like. -/
def sort_key (d : Descriptor) : Except String (Int × Int × Int) := do
  let nh ← pyNegInt d.height
  let nt ← pyNegInt d.tbr
  Except.ok (typeRank d.type, nh, nt)

/-- Lexicographic `<=` on sort-key tuples, as Python compares int triples. -/
def tupLE (a b : Int × Int × Int) : Bool :=
  a.1 < b.1 || (a.1 == b.1 && (a.2.1 < b.2.1 || (a.2.1 == b.2.1 && a.2.2 ≤ b.2.2)))

/-- `list.sort(key=...)` decorates each element with its key first (raising on
the first bad element). -/
def attach_keys : List Descriptor → Except String (List ((Int × Int × Int) × Descriptor))
  | [] => Except.ok []
  | d :: ds => do
    let k ← sort_key d
    let rest ← attach_keys ds
    Except.ok ((k, d) :: rest)

/-- The `formats.sort(key=...)` call: a stable sort by the key tuples
(CPython's stable sort and a stable merge sort agree exactly). -/
def sort_formats (ds : List Descriptor) : Except String (List Descriptor) := do
  let kds ← attach_keys ds
  Except.ok ((kds.mergeSort (fun p q => tupLE p.1 q.1)).map Prod.snd)

/-- Formats processing of `get_video_info` (lines 106–120): the loop over
`info['formats']` followed by the in-place sort. -/
def process_formats (fmts : List PyVal) : Except String (List Descriptor) := do
  let ds ← formats_loop fmts
  sort_formats ds

/-- The dict returned by `get_real_stream_url` (`direct_url` always aliases
`url`). -/
structure StreamInfo where
  url : PyVal
  direct_url : PyVal
  format_id : String
  ext : PyVal
  filesize : PyVal
  has_drm : PyVal

/-- The inner loop of `get_real_stream_url` over `info['formats']`: the first
entry whose `format_id` equals the requested one and that has a `url` key
wins; reaching the end falls through to `return None`. -/
def find_format : List PyVal → String → Except String (Option StreamInfo)
  | [], _ => Except.ok none
  | f :: rest, fid => do
    let fid0 ← pyGet f "format_id" pnone
    if pyEq fid0 (pstr fid) then do
      let hasU ← pyInOp "url" f
      if hasU then do
        let u ← pyIndex f "url"
        let ext ← pyGet f "ext" (pstr "mp4")
        let fs ← pyGet f "filesize" (pint 0)
        let drm ← pyGet f "has_drm" (pbool false)
        Except.ok (some ⟨u, u, fid, ext, fs, drm⟩)
      else find_format rest fid
    else find_format rest fid

namespace YouTubeRealDownloader

/-- The body of the `try` in `get_real_stream_url`; the external
`ydl.extract_info` call is abstracted as `fetched` (its raising is
`Except.error`). -/
def get_real_stream_url_run (fetched : Except String PyVal) (format_id : String) :
    Except String (Option StreamInfo) := do
  let info ← fetched
  -- if info and 'url' in info:
  let c ← if pyTruthy info then pyInOp "url" info else pure false
  if c then do
    let u ← pyIndex info "url"
    let ext ← pyGet info "ext" (pstr "mp4")
    let fs ← pyGet info "filesize" (pint 0)
    Except.ok (some ⟨u, u, format_id, ext, fs, pbool false⟩)
  else do
    -- if 'formats' in info:
    let hasF ← pyInOp "formats" info
    if hasF then do
      let fv ← pyIndex info "formats"
      let elems ← pyIterate fv
      find_format elems format_id
    else Except.ok none

/-- `YouTubeRealDownloader.get_real_stream_url`: any exception is caught and
turned into `None`. -/
def get_real_stream_url (fetched : Except String PyVal) (format_id : String) :
    Option StreamInfo :=
  match get_real_stream_url_run fetched format_id with
  | Except.ok r => r
  | Except.error _ => none

end YouTubeRealDownloader

/-- The dict returned by `YouTubeRealDownloader.get_video_info` (keys as
fields; `description` is always built as a string, `format_count` as
`len(formats)`). -/
structure VideoInfoS where
  video_id : String
  title : PyVal
  channel : PyVal
  duration : PyVal
  views : PyVal
  description : String
  thumbnail : PyVal
  formats : List Descriptor
  format_count : Nat

namespace YouTubeRealDownloader

/-- The body of the `try` in the static `get_video_info` (lines 93–132); the
external `ydl.extract_info` call is the `fetched` parameter. -/
def get_video_info_run (video_id : String) (fetched : Except String PyVal) :
    Except String (Option VideoInfoS) := do
  let info ← fetched
  if !pyTruthy info then Except.ok none
  else do
    let hasF ← pyInOp "formats" info
    let rawFormats ←
      if hasF then do
        let fv ← pyIndex info "formats"
        pyIterate fv
      else Except.ok []
    let ds ← process_formats rawFormats
    let title ← pyGet info "title" (pstr "")
    let channel ← pyGet info "channel" (pstr "")
    let duration ← pyGet info "duration_string" (pstr "")
    let views ← pyGet info "view_count" (pint 0)
    -- info.get('description')[:200] + '...' if info.get('description') else ''
    let d0 ← pyGet info "description" pnone
    let description ←
      if pyTruthy d0 then do
        let d1 ← pyGet info "description" pnone
        match d1 with
        | pstr s => Except.ok (String.mk (s.data.take 200) ++ "...")
        | _ => Except.error "TypeError: unsupported slice or concatenation"
      else Except.ok ""
    let thumbnail ← pyGet info "thumbnail"
      (pstr ("https://i.ytimg.com/vi/" ++ video_id ++ "/maxresdefault.jpg"))
    Except.ok (some
      { video_id := video_id, title := title, channel := channel,
        duration := duration, views := views, description := description,
        thumbnail := thumbnail, formats := ds, format_count := ds.length })

/-- `YouTubeRealDownloader.get_video_info`: any exception in the body is
caught and turned into `None`. -/
def get_video_info (video_id : String) (fetched : Except String PyVal) :
    Option VideoInfoS :=
  match get_video_info_run video_id fetched with
  | Except.ok r => r
  | Except.error _ => none

end YouTubeRealDownloader

/-- JSON documents, the bodies produced by `jsonify`. -/
inductive Json where
  | jnull : Json
  | jbool : Bool → Json
  | jnum : Int → Json
  | jstr : String → Json
  | jarr : List Json → Json
  | jobj : List (String × Json) → Json

mutual

/-- `jsonify` serialization of a Python value. -/
def pyToJson : PyVal → Json
  | pnone => Json.jnull
  | pint n => Json.jnum n
  | pstr s => Json.jstr s
  | pbool b => Json.jbool b
  | pdict es => Json.jobj (pyToJsonEntries es)
  | plist xs => Json.jarr (pyToJsonElems xs)

/-- Serialization of dict entries. -/
def pyToJsonEntries : List (String × PyVal) → List (String × Json)
  | [] => []
  | e :: rest => (e.fst, pyToJson e.snd) :: pyToJsonEntries rest

/-- Serialization of list elements. -/
def pyToJsonElems : List PyVal → List Json
  | [] => []
  | x :: rest => pyToJson x :: pyToJsonElems rest

end

/-- Serialization of a format descriptor, in the dict-literal key order of
`parse_format`. -/
def descToJson (d : Descriptor) : Json :=
  Json.jobj
    [("format_id", pyToJson d.format_id), ("quality", pyToJson d.quality),
     ("type", Json.jstr d.type), ("extension", pyToJson d.extension),
     ("size", Json.jstr d.size), ("has_video", Json.jbool d.has_video),
     ("has_audio", Json.jbool d.has_audio), ("fps", pyToJson d.fps),
     ("width", pyToJson d.width), ("height", pyToJson d.height),
     ("tbr", pyToJson d.tbr), ("vcodec", pyToJson d.vcodec),
     ("acodec", pyToJson d.acodec), ("url", pyToJson d.url),
     ("is_googlevideo", Json.jbool d.is_googlevideo),
     ("has_drm", pyToJson d.has_drm)]

/-- A finished HTTP response from a request handler: either a JSON body with
a status code, or a streaming response whose chunks are produced lazily (a
failure while producing them is `Except.error`). -/
inductive RouteResult where
  | json : Nat → Json → RouteResult
  | stream : Nat → List (String × String) → Except String (List (List Nat)) → RouteResult

/-- Status code of a handler response. -/
def RouteResult.statusOf : RouteResult → Nat
  | RouteResult.json st _ => st
  | RouteResult.stream st _ _ => st

/-- The JSON error body `{"success": False, "error": msg}` used by the API
handlers. -/
def errBody (msg : String) : Json :=
  Json.jobj [("success", Json.jbool false), ("error", Json.jstr msg)]

/-- Whether a JSON body is an object carrying an `error` field. -/
def Json.hasErrorKey : Json → Bool
  | Json.jobj fs => fs.any (fun f => f.fst == "error")
  | _ => false

/-- A handler outcome the propagation policy allows: a 200 JSON body, a JSON
body with a client/server error status carrying an `error` field, or a
streaming response — never an escaped exception. -/
def WellFormedResult (r : RouteResult) : Prop :=
  (∃ j, r = RouteResult.json 200 j) ∨
  (∃ st j, (st = 400 ∨ st = 404 ∨ st = 500) ∧ r = RouteResult.json st j ∧
    j.hasErrorKey = true) ∨
  (∃ hs b, r = RouteResult.stream 200 hs b)

/-- `re.sub(r'[^\w\-_\. ]', '_', s)`: word characters (ASCII approximation of
`\w`), dash, underscore, dot and space are kept, everything else becomes
`'_'`. -/
def sanitizeFilename (s : String) : String :=
  String.mk (s.data.map (fun c =>
    if c.isAlphanum || c = '_' || c = '-' || c = '.' || c = ' ' then c else '_'))

/-- The `/api/get-video-info` handler.  The `try` block never raises: the
static `get_video_info` catches its own exceptions (returning `None`) and the
response assembly is pure, so the route's `except` arm is unreachable.  The
response-building `video_info.get(...)` defaults are dead: the static method
always stores every key. -/
def get_video_info (url : String) (fetched : Except String PyVal) : RouteResult :=
  if url = "" then RouteResult.json 400 (errBody "URL parameter is required")
  else
    match YouTubeRealDownloader.extract_video_id url with
    | none => RouteResult.json 400 (errBody "Invalid YouTube URL")
    | some video_id =>
      match YouTubeRealDownloader.get_video_info video_id fetched with
      | none => RouteResult.json 500 (errBody "Could not fetch video information")
      | some vi =>
        RouteResult.json 200 (Json.jobj
          [("success", Json.jbool true), ("video_id", Json.jstr video_id),
           ("title", pyToJson vi.title), ("channel", pyToJson vi.channel),
           ("duration", pyToJson vi.duration), ("views", pyToJson vi.views),
           ("description", Json.jstr vi.description),
           ("thumbnail", pyToJson vi.thumbnail),
           ("formats", Json.jarr (vi.formats.map descToJson)),
           ("format_count", Json.jnum vi.formats.length)])

/-- The filename base of `download_direct`:
`video_info.get('title', f'video_{video_id}') if video_info else f'video_{video_id}'`
followed by the `re.sub` call, which raises `TypeError` unless the title is a
string.  (The static method always stores a `title` key, so its `get` default
is dead.) -/
def title_str (vi : Option VideoInfoS) (video_id : String) : Except String String :=
  match (match vi with
         | some v => v.title
         | none => pstr ("video_" ++ video_id)) with
  | pstr s => Except.ok s
  | _ => Except.error "TypeError: expected string or bytes-like object"

/-- The `/api/download-direct/<video_id>` handler.  The two external
`ydl.extract_info` calls are abstracted as `streamFetched` / `infoFetched`,
the upstream media response as `up`; an exception inside the `try` becomes
the 500 JSON error with the exception text. -/
def download_direct (video_id : String) (format_id : String) (quality : String)
    (streamFetched infoFetched : Except String PyVal) (up : HttpResp) : RouteResult :=
  let run : Except String RouteResult := do
    match YouTubeRealDownloader.get_real_stream_url streamFetched format_id with
    | none => Except.ok (RouteResult.json 500 (errBody "Could not get download URL"))
    | some si =>
      if !pyTruthy si.url then
        Except.ok (RouteResult.json 500 (errBody "Could not get download URL"))
      else do
        let tstr ← title_str
          (YouTubeRealDownloader.get_video_info video_id infoFetched) video_id
        let filename :=
          sanitizeFilename (String.mk (tstr.data.take 100)) ++
            "_" ++ quality ++ "." ++ pyStrOf si.ext
        let content_type :=
          if pyEq si.ext (pstr "webm") then "video/webm"
          else if subSearch "audio".data format_id.data then "audio/mpeg"
          else "video/mp4"
        let content_length :=
          if pyTruthy si.filesize then pyStrOf si.filesize else ""
        Except.ok (RouteResult.stream 200
          [("Content-Disposition", "attachment; filename=\"" ++ filename ++ "\""),
           ("Content-Type", content_type),
           ("Content-Length", content_length)]
          (download_generate up))
  match run with
  | Except.ok r => r
  | Except.error e => RouteResult.json 500 (errBody e)

/-- The `/api/stream/<video_id>` handler: same resolution, no upstream status
check at all — the relay body is unconditionally the chunked upstream body. -/
def stream_video (video_id : String) (format_id : String)
    (streamFetched : Except String PyVal) (up : HttpResp) : RouteResult :=
  let run : Except String RouteResult := do
    match YouTubeRealDownloader.get_real_stream_url streamFetched format_id with
    | none => Except.ok (RouteResult.json 500 (errBody "Could not get stream URL"))
    | some si =>
      if !pyTruthy si.url then
        Except.ok (RouteResult.json 500 (errBody "Could not get stream URL"))
      else
        let content_type :=
          if pyEq si.ext (pstr "webm") then "video/webm"
          else if subSearch "audio".data format_id.data then "audio/mpeg"
          else "video/mp4"
        Except.ok (RouteResult.stream 200
          [("Content-Type", content_type), ("Accept-Ranges", "bytes"),
           ("Cache-Control", "no-cache"), ("Content-Disposition", "inline")]
          (Except.ok (stream_generate up)))
  match run with
  | Except.ok r => r
  | Except.error e => RouteResult.json 500 (errBody e)

/-- The 404 error handler. -/
def not_found : RouteResult :=
  RouteResult.json 404 (Json.jobj [("error", Json.jstr "Endpoint not found")])

/-- The 500 error handler. -/
def server_error : RouteResult :=
  RouteResult.json 500 (Json.jobj [("error", Json.jstr "Internal server error")])

/-- The 400 error handler. -/
def bad_request : RouteResult :=
  RouteResult.json 400 (Json.jobj [("error", Json.jstr "Bad request")])

/-- Spec 4.4 quality derivation, stated in the spec's own terms: the explicit
label if present, else the pixel height as `"<height>p"`, else the bitrate as
`"<tbr>kbps"`, else `"Unknown"` (presence being Python truthiness). -/
def specQuality (label height bitrate : PyVal) : PyVal :=
  if pyTruthy label then label
  else if pyTruthy height then pstr (pyStrOf height ++ "p")
  else if pyTruthy bitrate then pstr (pyStrOf bitrate ++ "kbps")
  else pstr "Unknown"

/-- Spec-side group rank of a descriptor: combined, then video-only, then
audio-only. -/
def specTypeRank (d : Descriptor) : Int :=
  if d.type = "video+audio" then 0 else if d.type = "video" then 1 else 2

/-- Claim C10's ordering on adjacent descriptors: earlier group first; within
a group larger height first; for equal heights larger bitrate first. -/
def specOrdered (a b : Descriptor) : Prop :=
  specTypeRank a < specTypeRank b ∨
    (specTypeRank a = specTypeRank b ∧
      (intOf b.height < intOf a.height ∨
        (intOf a.height = intOf b.height ∧ intOf b.tbr ≤ intOf a.tbr)))

instance (a b : Descriptor) : Decidable (specOrdered a b) := by
  unfold specOrdered; infer_instance

/-- Whether a format value is a string (the shape `'googlevideo.com' in url`
requires of a truthy `url` for the membership test not to raise). -/
def isStrVal : PyVal → Bool
  | pstr _ => true
  | _ => false

/-- Whether the formats loop would even look at an entry's `url`: the entry
must be a dict and its `url` value truthy. -/
def fmtUrlTruthy (f : PyVal) : Bool :=
  match f with
  | pdict es => pyTruthy (dictLookup es "url" pnone)
  | _ => false

/-- Claim C4's notion of a fully well-formed (non-malformed) entry: a dict
which either has a falsy/absent `url` (the loop skips it before parsing), or
whose fields have the types `parse_format` and the sort key can process
without raising: a string `url`, an int-like-or-falsy `filesize` (with the
`filesize_approx` fallback), and int-like `height` and `tbr` defaults. -/
def ValidFormatEntry (f : PyVal) : Bool :=
  match f with
  | pdict es =>
    !pyTruthy (dictLookup es "url" pnone) ||
      (isStrVal (dictLookup es "url" pnone) &&
        (!pyTruthy (dictLookup es "filesize"
            (dictLookup es "filesize_approx" (pint 0))) ||
          (pyIntVal (dictLookup es "filesize"
            (dictLookup es "filesize_approx" (pint 0)))).isSome) &&
        (pyIntVal (dictLookup es "height" (pint 0))).isSome &&
        (pyIntVal (dictLookup es "tbr" (pint 0))).isSome)
  | _ => false

theorem dropPref_sound (pat : List Char) :
    ∀ s t : List Char, dropPref pat s = some t → s = pat ++ t := by
  induction pat with
  | nil => intro s t h; simp [dropPref] at h; simp [h]
  | cons p ps ih =>
    intro s t h
    cases s with
    | nil => simp [dropPref] at h
    | cons a as =>
      simp only [dropPref] at h
      split at h
      · rename_i heq
        subst heq
        simpa using ih as t h
      · exact absurd h (by simp)

theorem dropPref_mem (pat : List Char) (s t : List Char) (h : dropPref pat s = some t) :
    ∀ c ∈ pat, c ∈ s := by
  intro c hc
  rw [dropPref_sound pat s t h]
  exact List.mem_append_left _ hc

theorem tryAt_some (pat s r : List Char) (h : tryAt pat s = some r) :
    r.length = 11 ∧ r.all isIdChar = true ∧
      ∃ t, dropPref pat s = some t ∧ r = t.take 11 := by
  unfold tryAt at h
  cases hdp : dropPref pat s with
  | none => rw [hdp] at h; cases h
  | some t =>
    rw [hdp] at h
    simp only [] at h
    split at h
    · rename_i hcond
      cases h
      simp only [Bool.and_eq_true, decide_eq_true_eq] at hcond
      exact ⟨hcond.1, hcond.2, t, rfl, rfl⟩
    · cases h

theorem searchPat_some (pat : List Char) :
    ∀ s r : List Char, searchPat pat s = some r →
      ∃ u s', s = u ++ s' ∧ tryAt pat s' = some r := by
  intro s
  induction s with
  | nil =>
    intro r h
    rw [searchPat] at h
    cases htry : tryAt pat [] with
    | none => rw [htry] at h; cases h
    | some x => rw [htry] at h; cases h; exact ⟨[], [], rfl, htry⟩
  | cons a as ih =>
    intro r h
    rw [searchPat] at h
    cases htry : tryAt pat (a :: as) with
    | some x => rw [htry] at h; cases h; exact ⟨[], a :: as, rfl, htry⟩
    | none =>
      rw [htry] at h
      obtain ⟨u, s', heq, htry'⟩ := ih r h
      exact ⟨a :: u, s', by simp [heq], htry'⟩

theorem searchPat_none_of_bad_char (pat : List Char) (c0 : Char) (hc0 : c0 ∈ pat)
    (hbad : isIdChar c0 = false) :
    ∀ s : List Char, s.all isIdChar = true → searchPat pat s = none := by
  intro s
  induction s with
  | nil =>
    intro _
    cases pat with
    | nil => cases hc0
    | cons p ps => simp [searchPat, tryAt, dropPref]
  | cons a as ih =>
    intro hall
    have has : as.all isIdChar = true := by
      simp only [List.all_cons, Bool.and_eq_true] at hall
      exact hall.2
    have htry : tryAt pat (a :: as) = none := by
      unfold tryAt
      cases hdp : dropPref pat (a :: as) with
      | none => rfl
      | some t =>
        exfalso
        have hmem := dropPref_mem pat _ _ hdp c0 hc0
        have hgood : isIdChar c0 = true := List.all_eq_true.mp hall c0 hmem
        rw [hgood] at hbad
        cases hbad
    rw [searchPat, htry, ih has]

theorem extractCore_some (url r : List Char) (h : extractCore url = some r) :
    (r.length = 11 ∧ r.all isIdChar = true ∧ ∃ p q, url = p ++ r ++ q) ∨
      (r = url ∧ bareMatch url = true) := by
  unfold extractCore at h
  have fromSearch :
      ∀ pat : List Char, searchPat pat url = some r →
        r.length = 11 ∧ r.all isIdChar = true ∧ ∃ p q, url = p ++ r ++ q := by
    intro pat hs
    obtain ⟨u, s', heq, htry⟩ := searchPat_some pat url r hs
    obtain ⟨hlen, hall, t, hdp, hr⟩ := tryAt_some pat s' r htry
    refine ⟨hlen, hall, u ++ pat, t.drop 11, ?_⟩
    have hs' : s' = pat ++ t := dropPref_sound pat s' t hdp
    have ht : t = r ++ t.drop 11 := by
      conv_lhs => rw [← List.take_append_drop 11 t]
      rw [hr]
    rw [heq, hs']
    conv_lhs => rw [ht]
    simp
  cases h1 : searchPat "youtube.com/watch?v=".data url with
  | some x => rw [h1] at h; cases h; exact Or.inl (fromSearch _ h1)
  | none =>
  rw [h1] at h
  cases h2 : searchPat "youtu.be/".data url with
  | some x => rw [h2] at h; cases h; exact Or.inl (fromSearch _ h2)
  | none =>
  rw [h2] at h
  cases h3 : searchPat "youtube.com/embed/".data url with
  | some x => rw [h3] at h; cases h; exact Or.inl (fromSearch _ h3)
  | none =>
  rw [h3] at h
  cases h4 : searchPat "youtube.com/shorts/".data url with
  | some x => rw [h4] at h; cases h; exact Or.inl (fromSearch _ h4)
  | none =>
  rw [h4] at h
  by_cases hbare : bareMatch url = true
  · rw [if_pos hbare] at h
    injection h with h
    exact Or.inr ⟨h.symm, hbare⟩
  · rw [if_neg hbare] at h
    cases h

theorem extractCore_none_iff (url : List Char) :
    extractCore url = none ↔ knownPatternMatch url = false := by
  unfold extractCore knownPatternMatch
  cases h1 : searchPat "youtube.com/watch?v=".data url <;>
    cases h2 : searchPat "youtu.be/".data url <;>
      cases h3 : searchPat "youtube.com/embed/".data url <;>
        cases h4 : searchPat "youtube.com/shorts/".data url <;>
          cases hb : bareMatch url <;> simp

theorem extractCore_watch (id : List Char) (h1 : id.length = 11)
    (h2 : id.all isIdChar = true) :
    extractCore ("https://www.youtube.com/watch?v=".data ++ id) = some id := by
  have htake : id.take 11 = id := List.take_of_length_le (by omega)
  simp [extractCore, searchPat, tryAt, dropPref, htake, h1, h2]

theorem extractCore_short (id : List Char) (h1 : id.length = 11)
    (h2 : id.all isIdChar = true) :
    extractCore ("https://youtu.be/".data ++ id) = some id := by
  have htake : id.take 11 = id := List.take_of_length_le (by omega)
  have hdot : isIdChar '.' = false := by decide
  have hw : searchPat "youtube.com/watch?v=".data id = none :=
    searchPat_none_of_bad_char _ '.' (by decide) hdot id h2
  simp [extractCore, searchPat, tryAt, dropPref, htake, h1, h2, hw]

theorem extractCore_embed (id : List Char) (h1 : id.length = 11)
    (h2 : id.all isIdChar = true) :
    extractCore ("https://www.youtube.com/embed/".data ++ id) = some id := by
  have htake : id.take 11 = id := List.take_of_length_le (by omega)
  have hdot : isIdChar '.' = false := by decide
  have hw : searchPat "youtube.com/watch?v=".data id = none :=
    searchPat_none_of_bad_char _ '.' (by decide) hdot id h2
  have hs : searchPat "youtu.be/".data id = none :=
    searchPat_none_of_bad_char _ '.' (by decide) hdot id h2
  simp [extractCore, searchPat, tryAt, dropPref, htake, h1, h2, hw, hs]

theorem extractCore_shorts (id : List Char) (h1 : id.length = 11)
    (h2 : id.all isIdChar = true) :
    extractCore ("https://www.youtube.com/shorts/".data ++ id) = some id := by
  have htake : id.take 11 = id := List.take_of_length_le (by omega)
  have hdot : isIdChar '.' = false := by decide
  have hw : searchPat "youtube.com/watch?v=".data id = none :=
    searchPat_none_of_bad_char _ '.' (by decide) hdot id h2
  have hs : searchPat "youtu.be/".data id = none :=
    searchPat_none_of_bad_char _ '.' (by decide) hdot id h2
  have he : searchPat "youtube.com/embed/".data id = none :=
    searchPat_none_of_bad_char _ '.' (by decide) hdot id h2
  simp [extractCore, searchPat, tryAt, dropPref, htake, h1, h2, hw, hs, he]

theorem extractCore_bare (id : List Char) (h1 : id.length = 11)
    (h2 : id.all isIdChar = true) :
    extractCore id = some id := by
  have htake : id.take 11 = id := List.take_of_length_le (by omega)
  have hdrop : id.drop 11 = [] := List.drop_eq_nil_of_le (by omega)
  have hdot : isIdChar '.' = false := by decide
  have hw : searchPat "youtube.com/watch?v=".data id = none :=
    searchPat_none_of_bad_char _ '.' (by decide) hdot id h2
  have hs : searchPat "youtu.be/".data id = none :=
    searchPat_none_of_bad_char _ '.' (by decide) hdot id h2
  have he : searchPat "youtube.com/embed/".data id = none :=
    searchPat_none_of_bad_char _ '.' (by decide) hdot id h2
  have hh : searchPat "youtube.com/shorts/".data id = none :=
    searchPat_none_of_bad_char _ '.' (by decide) hdot id h2
  simp [extractCore, bareMatch, htake, hdrop, h1, h2, hw, hs, he, hh]

/-- C1 (counterexample): a live-path URL is NOT accepted — `extract_video_id`
has no `live/` pattern and returns `None` on
`https://www.youtube.com/live/dQw4w9WgXcQ`, contradicting the claim that
live-path URLs yield the embedded identifier. -/
theorem extract_video_id_live_url_fails :
    YouTubeRealDownloader.extract_video_id
      "https://www.youtube.com/live/dQw4w9WgXcQ" = none := by
  decide

/-- C1 (amended): for every 11-character identifier of the class
`[a-zA-Z0-9_-]`, the watch, short-link, embed and shorts URL shapes and the
bare token are all normalized to that same identifier (live-path URLs are not
accepted). -/
theorem extract_video_id_accepted_shapes (id : String) (hlen : id.length = 11)
    (hchars : id.data.all isIdChar = true) :
    YouTubeRealDownloader.extract_video_id
        ("https://www.youtube.com/watch?v=" ++ id) = some id ∧
    YouTubeRealDownloader.extract_video_id ("https://youtu.be/" ++ id) = some id ∧
    YouTubeRealDownloader.extract_video_id
        ("https://www.youtube.com/embed/" ++ id) = some id ∧
    YouTubeRealDownloader.extract_video_id
        ("https://www.youtube.com/shorts/" ++ id) = some id ∧
    YouTubeRealDownloader.extract_video_id id = some id := by
  unfold YouTubeRealDownloader.extract_video_id
  refine ⟨?_, ?_, ?_, ?_, ?_⟩
  · rw [show ("https://www.youtube.com/watch?v=" ++ id).data
        = "https://www.youtube.com/watch?v=".data ++ id.data from rfl,
      extractCore_watch id.data hlen hchars]
    rfl
  · rw [show ("https://youtu.be/" ++ id).data
        = "https://youtu.be/".data ++ id.data from rfl,
      extractCore_short id.data hlen hchars]
    rfl
  · rw [show ("https://www.youtube.com/embed/" ++ id).data
        = "https://www.youtube.com/embed/".data ++ id.data from rfl,
      extractCore_embed id.data hlen hchars]
    rfl
  · rw [show ("https://www.youtube.com/shorts/" ++ id).data
        = "https://www.youtube.com/shorts/".data ++ id.data from rfl,
      extractCore_shorts id.data hlen hchars]
    rfl
  · rw [extractCore_bare id.data hlen hchars]
    rfl

/-- C1 (witness): the spec's example identifier through the short-link and
bare shapes. -/
theorem extract_video_id_accepted_shapes_witness :
    YouTubeRealDownloader.extract_video_id "https://youtu.be/dQw4w9WgXcQ"
        = some "dQw4w9WgXcQ" ∧
    YouTubeRealDownloader.extract_video_id "dQw4w9WgXcQ" = some "dQw4w9WgXcQ" :=
  ⟨(extract_video_id_accepted_shapes "dQw4w9WgXcQ" (by decide) (by decide)).2.1,
   (extract_video_id_accepted_shapes "dQw4w9WgXcQ" (by decide) (by decide)).2.2.2.2⟩

/-- C2 (counterexample): `"abcdefghijk\n"` matches none of the accepted
shapes (it is not an 11-character token), yet the normalizer does not fail:
CPython `$` matches before the trailing newline and the function returns the
whole 12-character input — an incorrect identifier. -/
theorem extract_video_id_newline_not_rejected :
    YouTubeRealDownloader.extract_video_id "abcdefghijk\n"
        = some "abcdefghijk\n" ∧ ("abcdefghijk\n" : String).length = 12 := by
  constructor
  · decide
  · decide

/-- C2 (amended): the normalizer returns `None` exactly when none of its five
matchers (the four marker patterns and the anchored bare check, the latter
also accepting one trailing newline) matches; a `None` from it is surfaced by
the info endpoint as HTTP 400; and any returned value is a contiguous
substring of the input. -/
theorem extract_video_id_failure_iff_no_pattern (url : String) :
    (YouTubeRealDownloader.extract_video_id url = none ↔
      knownPatternMatch url.data = false) ∧
    (∀ fetched, YouTubeRealDownloader.extract_video_id url = none →
      (get_video_info url fetched).statusOf = 400) ∧
    (∀ id, YouTubeRealDownloader.extract_video_id url = some id →
      ∃ p q, url.data = p ++ id.data ++ q) := by
  refine ⟨?_, ?_, ?_⟩
  · have hmap : (YouTubeRealDownloader.extract_video_id url = none) ↔
        extractCore url.data = none := by
      unfold YouTubeRealDownloader.extract_video_id
      cases extractCore url.data <;> simp
    rw [hmap]
    exact extractCore_none_iff url.data
  · intro fetched hnone
    unfold get_video_info
    by_cases hurl : url = ""
    · rw [if_pos hurl]; rfl
    · rw [if_neg hurl, hnone]; rfl
  · intro id hsome
    unfold YouTubeRealDownloader.extract_video_id at hsome
    cases hx : extractCore url.data with
    | none => rw [hx] at hsome; cases hsome
    | some r =>
      rw [hx] at hsome
      injection hsome with hsome
      have hid : id.data = r := by rw [← hsome]
      rcases extractCore_some url.data r hx with ⟨_, _, p, q, hdec⟩ | ⟨hru, _⟩
      · exact ⟨p, q, by rw [hid]; exact hdec⟩
      · exact ⟨[], [], by simp [hid, hru]⟩

/-- C2 (witness): a URL matching no pattern is rejected with a 400 from the
info endpoint. -/
theorem extract_video_id_failure_iff_no_pattern_witness :
    YouTubeRealDownloader.extract_video_id "https://example.com/nope" = none ∧
    (get_video_info "https://example.com/nope" (Except.error "boom")).statusOf
        = 400 := by
  have T := extract_video_id_failure_iff_no_pattern "https://example.com/nope"
  have hn : YouTubeRealDownloader.extract_video_id "https://example.com/nope"
      = none := T.1.mpr (by decide)
  exact ⟨hn, T.2.1 (Except.error "boom") hn⟩

/-- C9 (counterexample): the returned token can be 12 characters long and
contain a newline: `extract_video_id "abc_def-123\n"` returns the whole input,
which is not an 11-character `[a-zA-Z0-9_-]` token. -/
theorem extract_video_id_shape_violation :
    YouTubeRealDownloader.extract_video_id "abc_def-123\n"
        = some "abc_def-123\n" ∧
    ¬ (("abc_def-123\n" : String).length = 11 ∧
        ("abc_def-123\n" : String).data.all isIdChar = true) := by
  constructor
  · decide
  · decide

/-- C9 (amended): a returned identifier is either exactly 11 characters of
the class `[a-zA-Z0-9_-]` (any marker-pattern match, or a clean bare token),
or 12 characters — 11 of the class followed by one `'\n'` (the bare
`re.match` accepting a trailing newline). -/
theorem extract_video_id_result_shape (url id : String)
    (h : YouTubeRealDownloader.extract_video_id url = some id) :
    (id.length = 11 ∧ id.data.all isIdChar = true) ∨
      (id.length = 12 ∧ (id.data.take 11).all isIdChar = true ∧
        id.data.drop 11 = ['\n']) := by
  unfold YouTubeRealDownloader.extract_video_id at h
  cases hx : extractCore url.data with
  | none => rw [hx] at h; cases h
  | some r =>
    rw [hx] at h
    injection h with h
    have hid : id.data = r := by rw [← h]
    have hlen : id.length = id.data.length := rfl
    rcases extractCore_some url.data r hx with ⟨h11, hall, _⟩ | ⟨hru, hbare⟩
    · left
      constructor
      · rw [hlen, hid]; exact h11
      · rw [hid]; exact hall
    · unfold bareMatch at hbare
      simp only [Bool.and_eq_true, Bool.or_eq_true, decide_eq_true_eq] at hbare
      obtain ⟨⟨htk, hallk⟩, hdrop⟩ := hbare
      have hurl : id.data = url.data := by rw [hid, hru]
      cases hdrop with
      | inl hnil =>
        left
        have hlentot : url.data.length = 11 := by
          have h0 := List.take_append_drop 11 url.data
          rw [hnil, List.append_nil] at h0
          rw [← h0]
          exact htk
        constructor
        · rw [hlen, hurl]; exact hlentot
        · rw [hurl]
          have : url.data.take 11 = url.data := List.take_of_length_le (by omega)
          rw [← this]; exact hallk
      | inr hnl =>
        right
        have hlentot : url.data.length = 12 := by
          have h0 := List.take_append_drop 11 url.data
          have h1 : url.data.length = (url.data.take 11).length + (url.data.drop 11).length := by
            rw [← List.length_append, h0]
          rw [htk, hnl] at h1
          simpa using h1
        refine ⟨by rw [hlen, hurl]; exact hlentot, ?_, ?_⟩
        · rw [hurl]; exact hallk
        · rw [hurl]; exact hnl

/-- C9 (witness): a clean bare token hits the 11-character branch of the
shape theorem. -/
theorem extract_video_id_result_shape_witness :
    (("dQw4w9WgXcQ" : String).length = 11 ∧
        ("dQw4w9WgXcQ" : String).data.all isIdChar = true) ∨
      (("dQw4w9WgXcQ" : String).length = 12 ∧
        (("dQw4w9WgXcQ" : String).data.take 11).all isIdChar = true ∧
        ("dQw4w9WgXcQ" : String).data.drop 11 = ['\n']) :=
  extract_video_id_result_shape "dQw4w9WgXcQ" "dQw4w9WgXcQ" (by decide)

theorem chunksGo_flatten (n : Nat) (hn : 0 < n) :
    ∀ fuel (xs : List Nat), xs.length ≤ fuel →
      (chunksGo n fuel xs).flatten = xs := by
  intro fuel
  induction fuel with
  | zero =>
    intro xs h
    have hx : xs = [] := List.eq_nil_of_length_eq_zero (by omega)
    subst hx
    rfl
  | succ f ih =>
    intro xs h
    cases xs with
    | nil => rfl
    | cons a as =>
      have hstep : chunksGo n (Nat.succ f) (a :: as)
          = if n = 0 then [a :: as]
            else (a :: as).take n :: chunksGo n f ((a :: as).drop n) := rfl
      rw [hstep, if_neg (by omega)]
      have hlen : ((a :: as).drop n).length ≤ f := by
        simp only [List.length_drop, List.length_cons]
        simp only [List.length_cons] at h
        omega
      rw [List.flatten_cons, ih ((a :: as).drop n) hlen, List.take_append_drop]

theorem chunks_flatten (n : Nat) (hn : 0 < n) (xs : List Nat) :
    (chunks n xs).flatten = xs :=
  chunksGo_flatten n hn xs.length xs (le_refl _)

theorem chunksGo_bounded (n : Nat) (hn : 0 < n) :
    ∀ fuel (xs : List Nat), xs.length ≤ fuel →
      ∀ c ∈ chunksGo n fuel xs, c.length ≤ n := by
  intro fuel
  induction fuel with
  | zero =>
    intro xs h
    have hx : xs = [] := List.eq_nil_of_length_eq_zero (by omega)
    subst hx
    intro c hc
    cases hc
  | succ f ih =>
    intro xs h
    cases xs with
    | nil => intro c hc; cases hc
    | cons a as =>
      have hstep : chunksGo n (Nat.succ f) (a :: as)
          = if n = 0 then [a :: as]
            else (a :: as).take n :: chunksGo n f ((a :: as).drop n) := rfl
      rw [hstep, if_neg (by omega)]
      have hlen : ((a :: as).drop n).length ≤ f := by
        simp only [List.length_drop, List.length_cons]
        simp only [List.length_cons] at h
        omega
      intro c hc
      rcases List.mem_cons.mp hc with hc | hc
      · subst hc
        simp [List.length_take]
      · exact ih ((a :: as).drop n) hlen c hc

theorem chunks_bounded (n : Nat) (hn : 0 < n) (xs : List Nat) :
    ∀ c ∈ chunks n xs, c.length ≤ n :=
  chunksGo_bounded n hn xs.length xs (le_refl _)

/-- C5: both relay generators produce chunks whose concatenation is exactly
the upstream body, and — for any chunk size, as with the fixed 8192 — every
yielded chunk is bounded by the chunk size, so the whole payload is never
held as one piece (beyond a body smaller than one chunk). -/
theorem relay_byte_identical (up : HttpResp) (n : Nat) (hn : 0 < n) :
    (stream_generate up).flatten = up.body ∧
    (∀ cs, download_generate up = Except.ok cs → cs.flatten = up.body) ∧
    (chunks n up.body).flatten = up.body ∧
    (∀ c ∈ chunks n up.body, c.length ≤ n) := by
  refine ⟨chunks_flatten 8192 (by omega) up.body, ?_, chunks_flatten n hn up.body,
    chunks_bounded n hn up.body⟩
  intro cs hcs
  unfold download_generate at hcs
  split at hcs
  · cases hcs
  · injection hcs with hcs
    rw [← hcs]
    exact chunks_flatten 8192 (by omega) up.body

/-- C5 (witness): a five-byte body relayed in chunks of two. -/
theorem relay_byte_identical_witness :
    (stream_generate ⟨200, [1, 2, 3, 4, 5]⟩).flatten = [1, 2, 3, 4, 5] ∧
    (chunks 2 [1, 2, 3, 4, 5]).flatten = [1, 2, 3, 4, 5] :=
  ⟨(relay_byte_identical ⟨200, [1, 2, 3, 4, 5]⟩ 2 (by omega)).1,
   (relay_byte_identical ⟨200, [1, 2, 3, 4, 5]⟩ 2 (by omega)).2.2.1⟩

/-- C6 (counterexample): with upstream status 404 the inline stream endpoint
returns a 200 streaming response whose chunks are exactly the upstream error
body: the upstream failure is relayed as a success, not surfaced. -/
theorem stream_video_relays_upstream_error :
    stream_video "dQw4w9WgXcQ" "18"
        (Except.ok (pdict [("url", pstr "http://googlevideo.com/x")]))
        ⟨404, [1, 2, 3]⟩
      = RouteResult.stream 200
          [("Content-Type", "video/mp4"), ("Accept-Ranges", "bytes"),
           ("Cache-Control", "no-cache"), ("Content-Disposition", "inline")]
          (Except.ok [[1, 2, 3]]) := by
  rfl

/-- C6 (amended): the attachment relay raises (yielding no chunk) exactly for
upstream status in [400, 600): for any status outside that range — a 2xx or
3xx non-200 included — it passes the body through, relaying it in full; any
successful relay is out-of-range and byte-faithful; and the inline stream
relay performs no status check at all and always relays the upstream body. -/
theorem relay_status_handling (up : HttpResp) :
    (400 ≤ up.status ∧ up.status < 600 →
      ∀ cs, download_generate up ≠ Except.ok cs) ∧
    (¬(400 ≤ up.status ∧ up.status < 600) →
      ∃ cs, download_generate up = Except.ok cs ∧ cs.flatten = up.body) ∧
    (∀ cs, download_generate up = Except.ok cs →
      ¬(400 ≤ up.status ∧ up.status < 600) ∧ cs.flatten = up.body) ∧
    (stream_generate up).flatten = up.body := by
  refine ⟨?_, ?_, ?_, chunks_flatten 8192 (by omega) up.body⟩
  · intro h cs
    unfold download_generate
    rw [if_pos h]
    intro hbad
    cases hbad
  · intro h
    unfold download_generate
    rw [if_neg h]
    exact ⟨_, rfl, chunks_flatten 8192 (by omega) up.body⟩
  · intro cs hcs
    unfold download_generate at hcs
    split at hcs
    · cases hcs
    · rename_i hneg
      injection hcs with hcs
      rw [← hcs]
      exact ⟨hneg, chunks_flatten 8192 (by omega) up.body⟩

/-- C6 (witness): a 404 upstream makes the attachment generator raise rather
than yield the body; a 206 upstream passes through with the body relayed in
full; and the inline generator relays the body even on a 404. -/
theorem relay_status_handling_witness :
    download_generate ⟨404, [7]⟩ ≠ Except.ok [[7]] ∧
    (∃ cs, download_generate ⟨206, [7]⟩ = Except.ok cs ∧ cs.flatten = [7]) ∧
    (stream_generate ⟨404, [7]⟩).flatten = [7] :=
  ⟨(relay_status_handling ⟨404, [7]⟩).1 (by decide) [[7]],
   (relay_status_handling ⟨206, [7]⟩).2.1 (by decide),
   (relay_status_handling ⟨404, [7]⟩).2.2.2⟩

theorem ebind_ok {α β : Type} {x : Except String α} {f : α → Except String β} {d : β}
    (h : (x >>= f) = Except.ok d) : ∃ a, x = Except.ok a ∧ f a = Except.ok d := by
  cases x with
  | ok a => exact ⟨a, rfl, h⟩
  | error e =>
    exfalso
    have hx : (Except.error e >>= f) = (Except.error e : Except String β) := rfl
    rw [hx] at h
    cases h

theorem pyIndex_of_truthy (es : List (String × PyVal)) (k : String)
    (htr : pyTruthy (dictLookup es k pnone) = true) :
    pyIndex (pdict es) k = Except.ok (dictLookup es k pnone) := by
  cases hf : dictFind es k with
  | some e => simp [pyIndex, dictLookup, hf]
  | none =>
    exfalso
    unfold dictLookup at htr
    rw [hf] at htr
    cases htr

theorem quality_of_spec (es : List (String × PyVal)) (fn q : PyVal)
    (hq : quality_of (pdict es) fn = Except.ok q) :
    q = specQuality fn (dictLookup es "height" pnone)
          (dictLookup es "tbr" pnone) := by
  unfold quality_of at hq
  unfold specQuality
  by_cases htr : pyTruthy fn = true
  · rw [if_pos htr] at hq
    injection hq with hq
    rw [if_pos htr, hq]
  · rw [if_neg htr] at hq
    rw [if_neg htr]
    obtain ⟨hv, hhv, hq⟩ := ebind_ok hq
    simp only [pyGet, Except.ok.injEq] at hhv
    subst hhv
    by_cases htrh : pyTruthy (dictLookup es "height" pnone) = true
    · rw [if_pos htrh] at hq
      rw [if_pos htrh]
      obtain ⟨ixv, hixv, hq⟩ := ebind_ok hq
      rw [pyIndex_of_truthy es "height" htrh] at hixv
      injection hixv with hixv
      subst hixv
      injection hq with hq
      rw [← hq]
    · rw [if_neg htrh] at hq
      rw [if_neg htrh]
      obtain ⟨tv, htv, hq⟩ := ebind_ok hq
      simp only [pyGet, Except.ok.injEq] at htv
      subst htv
      by_cases htrt : pyTruthy (dictLookup es "tbr" pnone) = true
      · rw [if_pos htrt] at hq
        rw [if_pos htrt]
        obtain ⟨ixv, hixv, hq⟩ := ebind_ok hq
        rw [pyIndex_of_truthy es "tbr" htrt] at hixv
        injection hixv with hixv
        subst hixv
        injection hq with hq
        rw [← hq]
      · rw [if_neg htrt] at hq
        rw [if_neg htrt]
        injection hq with hq
        rw [← hq]

/-- C3 (counterexample): the spec's fixture entry
`{itag: 140, mimeType: "audio/mp4", bitrate: 128000}` does NOT yield an audio
descriptor with quality `"128kbps"`: `parse_format` reads none of `itag`,
`mimeType`, `bitrate` — it reads `format_note`/`height`/`tbr` for the label
and `vcodec`/`acodec` for the kind — so the entry yields quality `"Unknown"`
and (both codec keys absent, hence `None != 'none'`) type `"video+audio"`. -/
theorem parse_format_fixture_not_audio :
    ∃ d, YouTubeRealDownloader.parse_format
        (pdict [("itag", pint 140), ("mimeType", pstr "audio/mp4"),
                ("bitrate", pint 128000)]) = Except.ok d ∧
      d.quality = pstr "Unknown" ∧ d.type = "video+audio" :=
  ⟨_, rfl, rfl, rfl⟩

/-- C3 (amended): whenever `parse_format` returns a descriptor, its quality
label is derived by the spec's preference order over the fields the code
reads — a truthy `format_note` verbatim, else a truthy `height` as
`"<height>p"`, else a truthy `tbr` as `"<tbr>kbps"` (the tbr value, already
in kbps, formatted verbatim), else `"Unknown"`. -/
theorem parse_format_quality_refines_spec (fmt : PyVal) (d : Descriptor)
    (fn h t : PyVal)
    (hok : YouTubeRealDownloader.parse_format fmt = Except.ok d)
    (hfn : pyGet fmt "format_note" (pstr "") = Except.ok fn)
    (hh : pyGet fmt "height" pnone = Except.ok h)
    (ht : pyGet fmt "tbr" pnone = Except.ok t) :
    d.quality = specQuality fn h t := by
  cases fmt with
  | pdict es =>
    simp only [pyGet, Except.ok.injEq] at hfn hh ht
    unfold YouTubeRealDownloader.parse_format at hok
    obtain ⟨a1, ha1, hok⟩ := ebind_ok hok
    obtain ⟨a2, ha2, hok⟩ := ebind_ok hok
    obtain ⟨a3, ha3, hok⟩ := ebind_ok hok
    obtain ⟨a4, ha4, hok⟩ := ebind_ok hok
    obtain ⟨a5, ha5, hok⟩ := ebind_ok hok
    obtain ⟨a6, ha6, hok⟩ := ebind_ok hok
    obtain ⟨q, hq, hok⟩ := ebind_ok hok
    obtain ⟨b1, hb1, hok⟩ := ebind_ok hok
    obtain ⟨b2, hb2, hok⟩ := ebind_ok hok
    obtain ⟨s, hs, hok⟩ := ebind_ok hok
    obtain ⟨g, hg, hok⟩ := ebind_ok hok
    obtain ⟨c1, hc1, hok⟩ := ebind_ok hok
    obtain ⟨c2, hc2, hok⟩ := ebind_ok hok
    obtain ⟨c3, hc3, hok⟩ := ebind_ok hok
    obtain ⟨c4, hc4, hok⟩ := ebind_ok hok
    obtain ⟨c5, hc5, hok⟩ := ebind_ok hok
    obtain ⟨c6, hc6, hok⟩ := ebind_ok hok
    obtain ⟨c7, hc7, hok⟩ := ebind_ok hok
    injection hok with hok
    have hdq : d.quality = q := by rw [← hok]
    simp only [pyGet, Except.ok.injEq] at ha2
    subst ha2
    have hspec := quality_of_spec es _ q hq
    rw [hdq, hspec, hfn, hh, ht]
  | pnone => simp [pyGet] at hfn
  | pint n => simp [pyGet] at hfn
  | pstr s => simp [pyGet] at hfn
  | pbool b => simp [pyGet] at hfn
  | plist xs => simp [pyGet] at hfn

/-- C3 (witness): a well-formed audio-only entry with `tbr` 128 goes through
the bitrate branch and yields quality `"128kbps"` on an `"audio"` descriptor. -/
theorem parse_format_quality_refines_spec_witness :
    ∃ d, YouTubeRealDownloader.parse_format
        (pdict [("format_id", pstr "140"), ("url", pstr "http://x"),
                ("vcodec", pstr "none"), ("acodec", pstr "mp4a.40.2"),
                ("tbr", pint 128)]) = Except.ok d ∧
      d.quality = specQuality (pstr "") pnone (pint 128) ∧
      specQuality (pstr "") pnone (pint 128) = pstr "128kbps" ∧
      (YouTubeRealDownloader.parse_format
          (pdict [("format_id", pstr "140"), ("url", pstr "http://x"),
                  ("vcodec", pstr "none"), ("acodec", pstr "mp4a.40.2"),
                  ("tbr", pint 128)])).map Descriptor.type
        = Except.ok "audio" := by
  cases hx : YouTubeRealDownloader.parse_format
      (pdict [("format_id", pstr "140"), ("url", pstr "http://x"),
              ("vcodec", pstr "none"), ("acodec", pstr "mp4a.40.2"),
              ("tbr", pint 128)]) with
  | error e =>
    exfalso
    have hok : (YouTubeRealDownloader.parse_format
        (pdict [("format_id", pstr "140"), ("url", pstr "http://x"),
                ("vcodec", pstr "none"), ("acodec", pstr "mp4a.40.2"),
                ("tbr", pint 128)])).toOption.isSome = true := rfl
    rw [hx] at hok
    simp [Except.toOption] at hok
  | ok d =>
    refine ⟨d, rfl, ?_, rfl, ?_⟩
    · exact parse_format_quality_refines_spec _ d (pstr "") pnone (pint 128)
        hx rfl rfl rfl
    · injection hx with hd
      rw [← hd]
      rfl

theorem ok_bind {α β : Type} (a : α) (f : α → Except String β) :
    (Except.ok a >>= f) = f a := rfl

theorem pyGet_dict (es : List (String × PyVal)) (k : String) (dflt : PyVal) :
    pyGet (pdict es) k dflt = Except.ok (dictLookup es k dflt) := rfl

theorem dictFind_of_truthy (es : List (String × PyVal)) (k : String)
    (h : pyTruthy (dictLookup es k pnone) = true) :
    ∃ e, dictFind es k = some e := by
  unfold dictLookup at h
  cases hf : dictFind es k with
  | some e => exact ⟨e, rfl⟩
  | none => rw [hf] at h; cases h

theorem dictLookup_of_find (es : List (String × PyVal)) (k : String)
    (e : String × PyVal) (hf : dictFind es k = some e) (d d' : PyVal) :
    dictLookup es k d = dictLookup es k d' := by
  unfold dictLookup
  rw [hf]

theorem quality_of_ok (es : List (String × PyVal)) (fn : PyVal) :
    ∃ q, quality_of (pdict es) fn = Except.ok q := by
  unfold quality_of
  by_cases h1 : pyTruthy fn = true
  · rw [if_pos h1]
    exact ⟨fn, rfl⟩
  · rw [if_neg h1]
    simp only [pyGet_dict, ok_bind]
    by_cases h2 : pyTruthy (dictLookup es "height" pnone) = true
    · rw [if_pos h2, pyIndex_of_truthy es "height" h2, ok_bind]
      exact ⟨_, rfl⟩
    · rw [if_neg h2]
      by_cases h3 : pyTruthy (dictLookup es "tbr" pnone) = true
      · rw [if_pos h3, pyIndex_of_truthy es "tbr" h3, ok_bind]
        exact ⟨_, rfl⟩
      · rw [if_neg h3]
        exact ⟨_, rfl⟩

theorem size_of_ok (v : PyVal)
    (h : pyTruthy v = false ∨ (pyIntVal v).isSome = true) :
    ∃ s, size_of v = Except.ok s := by
  unfold size_of
  by_cases ht : pyTruthy v = true
  · rw [if_pos ht]
    have hsome : (pyIntVal v).isSome = true := by
      rcases h with h | h
      · rw [ht] at h; cases h
      · exact h
    obtain ⟨n, hx⟩ := Option.isSome_iff_exists.mp hsome
    rw [hx]
    show ∃ s,
        (if 1024 ^ 3 ≤ n then Except.ok (formatFloat1 n.toNat (1024 ^ 3) ++ " GB")
         else if 1024 ^ 2 ≤ n then Except.ok (formatFloat1 n.toNat (1024 ^ 2) ++ " MB")
         else if 1024 ≤ n then Except.ok (formatFloat1 n.toNat 1024 ++ " KB")
         else Except.ok (pyStrOf v ++ " B")) = Except.ok s
    split
    · exact ⟨_, rfl⟩
    · split
      · exact ⟨_, rfl⟩
      · split
        · exact ⟨_, rfl⟩
        · exact ⟨_, rfl⟩
  · rw [if_neg ht]
    exact ⟨_, rfl⟩

theorem googlevideo_of_ok (v : PyVal) (h : isStrVal v = true) :
    ∃ b, googlevideo_of v = Except.ok b := by
  cases v with
  | pstr s =>
    unfold googlevideo_of
    by_cases ht : pyTruthy (pstr s) = true
    · rw [if_pos ht]
      exact ⟨_, rfl⟩
    · rw [if_neg ht]
      exact ⟨_, rfl⟩
  | pnone => simp [isStrVal] at h
  | pint n => simp [isStrVal] at h
  | pbool b => simp [isStrVal] at h
  | pdict es => simp [isStrVal] at h
  | plist xs => simp [isStrVal] at h

theorem parse_format_ok_of_valid (es : List (String × PyVal))
    (hval : ValidFormatEntry (pdict es) = true)
    (hurl : pyTruthy (dictLookup es "url" pnone) = true) :
    ∃ d, YouTubeRealDownloader.parse_format (pdict es) = Except.ok d ∧
      d.height = dictLookup es "height" (pint 0) ∧
      d.tbr = dictLookup es "tbr" (pint 0) := by
  simp only [ValidFormatEntry] at hval
  rw [hurl] at hval
  simp only [Bool.not_true, Bool.false_or, Bool.and_eq_true] at hval
  obtain ⟨⟨⟨hstr, hfs⟩, hh⟩, ht⟩ := hval
  obtain ⟨q, hq⟩ := quality_of_ok es (dictLookup es "format_note" (pstr ""))
  obtain ⟨s, hs⟩ := size_of_ok
      (dictLookup es "filesize" (dictLookup es "filesize_approx" (pint 0)))
      (by
        simp only [Bool.or_eq_true, Bool.not_eq_true'] at hfs
        exact hfs)
  have hstr' : isStrVal (dictLookup es "url" (pstr "")) = true := by
    obtain ⟨e, hf⟩ := dictFind_of_truthy es "url" hurl
    rw [dictLookup_of_find es "url" e hf (pstr "") pnone]
    exact hstr
  obtain ⟨g, hg⟩ := googlevideo_of_ok (dictLookup es "url" (pstr "")) hstr'
  unfold YouTubeRealDownloader.parse_format
  simp only [pyGet_dict, ok_bind, hq, hs, hg]
  exact ⟨_, rfl, rfl, rfl⟩

theorem formats_loop_ok_of_valid : ∀ fmts : List PyVal,
    (∀ f ∈ fmts, ValidFormatEntry f = true) →
    ∃ ds, formats_loop fmts = Except.ok ds ∧
      ds.length = fmts.countP fmtUrlTruthy ∧
      ∀ d ∈ ds, (pyIntVal d.height).isSome = true ∧
        (pyIntVal d.tbr).isSome = true := by
  intro fmts
  induction fmts with
  | nil =>
    intro _
    exact ⟨[], rfl, rfl, fun d hd => absurd hd (by simp)⟩
  | cons f rest ih =>
    intro hv
    have hvf := hv f (List.mem_cons_self f rest)
    have hvrest : ∀ g ∈ rest, ValidFormatEntry g = true :=
      fun g hg => hv g (List.mem_cons_of_mem f hg)
    obtain ⟨ds, hds, hlen, hint⟩ := ih hvrest
    cases f with
    | pdict es =>
      by_cases hu : pyTruthy (dictLookup es "url" pnone) = true
      · obtain ⟨d, hd, hdh, hdt⟩ := parse_format_ok_of_valid es hvf hu
        have hints : (pyIntVal (dictLookup es "height" (pint 0))).isSome = true ∧
            (pyIntVal (dictLookup es "tbr" (pint 0))).isSome = true := by
          simp only [ValidFormatEntry] at hvf
          rw [hu] at hvf
          simp only [Bool.not_true, Bool.false_or, Bool.and_eq_true] at hvf
          exact ⟨hvf.1.2, hvf.2⟩
        refine ⟨d :: ds, ?_, ?_, ?_⟩
        · simp only [formats_loop, pyGet_dict, ok_bind, hu, if_true, hd, hds]
        · simp only [List.length_cons, List.countP_cons, fmtUrlTruthy, hu,
            if_true, hlen]
        · intro d' hd'
          rcases List.mem_cons.mp hd' with h | h
          · subst h
            rw [hdh, hdt]
            exact hints
          · exact hint d' h
      · refine ⟨ds, ?_, ?_, hint⟩
        · have hu' : pyTruthy (dictLookup es "url" pnone) = false := by
            cases hx : pyTruthy (dictLookup es "url" pnone)
            · rfl
            · exact absurd hx hu
          simp only [formats_loop, pyGet_dict, ok_bind, hu', Bool.false_eq_true,
            if_false, hds]
        · have hu' : fmtUrlTruthy (pdict es) = false := by
            simp only [fmtUrlTruthy]
            cases hx : pyTruthy (dictLookup es "url" pnone)
            · rfl
            · exact absurd hx hu
          simp [List.countP_cons, hu', hlen]
    | pnone => simp [ValidFormatEntry] at hvf
    | pint n => simp [ValidFormatEntry] at hvf
    | pstr s => simp [ValidFormatEntry] at hvf
    | pbool b => simp [ValidFormatEntry] at hvf
    | plist xs => simp [ValidFormatEntry] at hvf

theorem sort_key_ok_of_int (d : Descriptor)
    (hh : (pyIntVal d.height).isSome = true)
    (ht : (pyIntVal d.tbr).isSome = true) :
    ∃ k, sort_key d = Except.ok k := by
  obtain ⟨x, hx⟩ := Option.isSome_iff_exists.mp hh
  obtain ⟨y, hy⟩ := Option.isSome_iff_exists.mp ht
  have h1 : pyNegInt d.height = Except.ok (-x) := by
    unfold pyNegInt
    rw [hx]
  have h2 : pyNegInt d.tbr = Except.ok (-y) := by
    unfold pyNegInt
    rw [hy]
  unfold sort_key
  rw [h1, ok_bind, h2, ok_bind]
  exact ⟨_, rfl⟩

theorem attach_keys_ok_of_int : ∀ ds : List Descriptor,
    (∀ d ∈ ds, (pyIntVal d.height).isSome = true ∧
      (pyIntVal d.tbr).isSome = true) →
    ∃ kds, attach_keys ds = Except.ok kds ∧ kds.length = ds.length := by
  intro ds
  induction ds with
  | nil => intro _; exact ⟨[], rfl, rfl⟩
  | cons d rest ih =>
    intro h
    have hd := h d (List.mem_cons_self d rest)
    obtain ⟨k, hk⟩ := sort_key_ok_of_int d hd.1 hd.2
    obtain ⟨kds, hkds, hklen⟩ := ih (fun g hg => h g (List.mem_cons_of_mem d hg))
    refine ⟨(k, d) :: kds, ?_, ?_⟩
    · simp only [attach_keys, hk, ok_bind, hkds]
    · simp only [List.length_cons, hklen]

theorem sort_formats_ok_of_int (ds : List Descriptor)
    (h : ∀ d ∈ ds, (pyIntVal d.height).isSome = true ∧
      (pyIntVal d.tbr).isSome = true) :
    ∃ ds', sort_formats ds = Except.ok ds' ∧ ds'.length = ds.length := by
  obtain ⟨kds, hkds, hklen⟩ := attach_keys_ok_of_int ds h
  refine ⟨(kds.mergeSort (fun p q => tupLE p.1 q.1)).map Prod.snd, ?_, ?_⟩
  · simp only [sort_formats, hkds, ok_bind]
  · rw [List.length_map, (List.mergeSort_perm kds _).length_eq, hklen]

/-- C4 (counterexample): one malformed entry (`None`) in the list makes the
whole formats pass raise (`None.get('url')` is an `AttributeError`), so the
valid entry's descriptor is NOT returned: the enclosing static
`get_video_info` catches the exception and returns `None` — the request then
fails with a 500 instead of returning the valid entries. -/
theorem process_formats_malformed_aborts :
    process_formats
        [pdict [("format_id", pstr "18"), ("url", pstr "http://x"),
                ("vcodec", pstr "avc1"), ("acodec", pstr "mp4a")],
         pnone]
      = Except.error "AttributeError: no attribute get" ∧
    YouTubeRealDownloader.get_video_info "dQw4w9WgXcQ"
        (Except.ok (pdict [("title", pstr "T"),
          ("formats", plist
            [pdict [("format_id", pstr "18"), ("url", pstr "http://x"),
                    ("vcodec", pstr "avc1"), ("acodec", pstr "mp4a")],
             pnone])]))
      = none :=
  ⟨rfl, rfl⟩

/-- C4 (amended): the loop never raises on *well-formed* lists: entries with
falsy/absent `url` are skipped and every url-bearing well-formed entry yields
exactly one descriptor.  A malformed entry, however, aborts the whole pass
with an exception that is only caught at the enclosing function boundary
(returning `None`/HTTP 500), losing the valid entries' descriptors — the
process itself never crashes. -/
theorem process_formats_ok_of_valid (fmts : List PyVal)
    (hv : ∀ f ∈ fmts, ValidFormatEntry f = true) :
    ∃ ds, process_formats fmts = Except.ok ds ∧
      ds.length = fmts.countP fmtUrlTruthy := by
  obtain ⟨ds0, hds0, hlen0, hint0⟩ := formats_loop_ok_of_valid fmts hv
  obtain ⟨ds, hds, hlen⟩ := sort_formats_ok_of_int ds0 hint0
  refine ⟨ds, ?_, ?_⟩
  · simp only [process_formats, hds0, ok_bind, hds]
  · rw [hlen, hlen0]

/-- C4 (witness): a two-entry list — one full entry, one without `url` —
resolves without raising to exactly one descriptor. -/
theorem process_formats_ok_of_valid_witness :
    ∃ ds, process_formats
        [pdict [("format_id", pstr "18"), ("url", pstr "http://x"),
                ("vcodec", pstr "avc1"), ("acodec", pstr "mp4a"),
                ("height", pint 360), ("tbr", pint 500)],
         pdict [("format_id", pstr "251")]]
      = Except.ok ds ∧ ds.length = 1 := by
  obtain ⟨ds, h1, h2⟩ := process_formats_ok_of_valid
    [pdict [("format_id", pstr "18"), ("url", pstr "http://x"),
            ("vcodec", pstr "avc1"), ("acodec", pstr "mp4a"),
            ("height", pint 360), ("tbr", pint 500)],
     pdict [("format_id", pstr "251")]] (by decide)
  exact ⟨ds, h1, h2.trans rfl⟩

theorem attach_keys_mem : ∀ (ds : List Descriptor) kds,
    attach_keys ds = Except.ok kds →
    ∀ p ∈ kds, sort_key p.2 = Except.ok p.1 := by
  intro ds
  induction ds with
  | nil =>
    intro kds h p hp
    injection h with h
    subst h
    cases hp
  | cons d rest ih =>
    intro kds h p hp
    obtain ⟨k, hk, h⟩ := ebind_ok h
    obtain ⟨krest, hkrest, h⟩ := ebind_ok h
    injection h with h
    subst h
    rcases List.mem_cons.mp hp with hp | hp
    · subst hp
      exact hk
    · exact ih krest hkrest p hp

theorem sort_key_content (d : Descriptor) (k : Int × Int × Int)
    (h : sort_key d = Except.ok k) :
    k = (typeRank d.type, -(intOf d.height), -(intOf d.tbr)) := by
  unfold sort_key at h
  obtain ⟨nh, hnh, h⟩ := ebind_ok h
  obtain ⟨nt, hnt, h⟩ := ebind_ok h
  injection h with h
  unfold pyNegInt at hnh hnt
  cases hx : pyIntVal d.height with
  | none => rw [hx] at hnh; cases hnh
  | some x =>
    rw [hx] at hnh
    injection hnh with hnh
    cases hy : pyIntVal d.tbr with
    | none => rw [hy] at hnt; cases hnt
    | some y =>
      rw [hy] at hnt
      injection hnt with hnt
      rw [← h, ← hnh, ← hnt]
      unfold intOf
      rw [hx, hy]

theorem tupLE_trans (a b c : Int × Int × Int)
    (h1 : tupLE a b = true) (h2 : tupLE b c = true) : tupLE a c = true := by
  unfold tupLE at *
  simp only [Bool.or_eq_true, Bool.and_eq_true, decide_eq_true_eq,
    beq_iff_eq] at *
  omega

theorem tupLE_total (a b : Int × Int × Int) :
    (tupLE a b || tupLE b a) = true := by
  unfold tupLE
  simp only [Bool.or_eq_true, Bool.and_eq_true, decide_eq_true_eq,
    beq_iff_eq]
  omega

theorem tupLE_key_spec (a b : Descriptor)
    (h : tupLE (typeRank a.type, -(intOf a.height), -(intOf a.tbr))
          (typeRank b.type, -(intOf b.height), -(intOf b.tbr)) = true) :
    specOrdered a b := by
  unfold tupLE at h
  unfold specOrdered
  have hta : specTypeRank a = typeRank a.type := rfl
  have htb : specTypeRank b = typeRank b.type := rfl
  simp only [Bool.or_eq_true, Bool.and_eq_true, decide_eq_true_eq,
    beq_iff_eq] at h
  rw [hta, htb]
  omega

/-- C10: whenever the formats pass of `get_video_info` returns a list, that
list is sorted: combined video+audio descriptors first, then video-only, then
audio-only; within a group by descending pixel height; for equal heights by
descending bitrate. -/
theorem process_formats_sorted (fmts : List PyVal) (ds : List Descriptor)
    (h : process_formats fmts = Except.ok ds) :
    ds.Pairwise specOrdered := by
  unfold process_formats at h
  obtain ⟨ds0, hds0, h⟩ := ebind_ok h
  unfold sort_formats at h
  obtain ⟨kds, hkds, h⟩ := ebind_ok h
  injection h with h
  subst h
  have hsorted := @List.sorted_mergeSort ((Int × Int × Int) × Descriptor)
      (fun p q => tupLE p.1 q.1)
      (fun x y z hxy hyz => tupLE_trans _ _ _ hxy hyz)
      (fun x y => tupLE_total _ _) kds
  have hmem : ∀ p ∈ kds.mergeSort (fun p q => tupLE p.1 q.1),
      sort_key p.2 = Except.ok p.1 := by
    intro p hp
    exact attach_keys_mem ds0 kds hkds p
      ((List.mergeSort_perm kds _).mem_iff.mp hp)
  rw [List.pairwise_map]
  refine List.Pairwise.imp_of_mem ?_ hsorted
  intro p q hp hq hle
  have hcp := sort_key_content p.2 p.1 (hmem p hp)
  have hcq := sort_key_content q.2 q.1 (hmem q hq)
  exact tupLE_key_spec p.2 q.2 (by rw [← hcp, ← hcq]; exact hle)

/-- C10 (witness): a shuffled concrete list — audio, 720p video, combined —
comes out grouped and height-sorted. -/
theorem process_formats_sorted_witness :
    ∃ ds, process_formats
        [pdict [("format_id", pstr "140"), ("url", pstr "http://a"),
                ("vcodec", pstr "none"), ("acodec", pstr "mp4a"),
                ("tbr", pint 128)],
         pdict [("format_id", pstr "247"), ("url", pstr "http://b"),
                ("vcodec", pstr "vp9"), ("acodec", pstr "none"),
                ("height", pint 720), ("tbr", pint 1500)],
         pdict [("format_id", pstr "18"), ("url", pstr "http://c"),
                ("vcodec", pstr "avc1"), ("acodec", pstr "mp4a"),
                ("height", pint 360), ("tbr", pint 700)]]
      = Except.ok ds ∧ ds.Pairwise specOrdered := by
  cases hx : process_formats
      [pdict [("format_id", pstr "140"), ("url", pstr "http://a"),
              ("vcodec", pstr "none"), ("acodec", pstr "mp4a"),
              ("tbr", pint 128)],
       pdict [("format_id", pstr "247"), ("url", pstr "http://b"),
              ("vcodec", pstr "vp9"), ("acodec", pstr "none"),
              ("height", pint 720), ("tbr", pint 1500)],
       pdict [("format_id", pstr "18"), ("url", pstr "http://c"),
              ("vcodec", pstr "avc1"), ("acodec", pstr "mp4a"),
              ("height", pint 360), ("tbr", pint 700)]] with
  | error e =>
    exfalso
    have hok : (process_formats
        [pdict [("format_id", pstr "140"), ("url", pstr "http://a"),
                ("vcodec", pstr "none"), ("acodec", pstr "mp4a"),
                ("tbr", pint 128)],
         pdict [("format_id", pstr "247"), ("url", pstr "http://b"),
                ("vcodec", pstr "vp9"), ("acodec", pstr "none"),
                ("height", pint 720), ("tbr", pint 1500)],
         pdict [("format_id", pstr "18"), ("url", pstr "http://c"),
                ("vcodec", pstr "avc1"), ("acodec", pstr "mp4a"),
                ("height", pint 360), ("tbr", pint 700)]]).toOption.isSome
        = true := rfl
    rw [hx] at hok
    simp [Except.toOption] at hok
  | ok ds => exact ⟨ds, rfl, process_formats_sorted _ ds hx⟩

/-- C7: every modeled handler yields a structured response for every input
and every outcome of the external calls (including a raised fetch): the info
endpoint returns a 200 JSON or a 400/500 JSON carrying an `error` field; the
two media endpoints return such a JSON error or a streaming response; the
Flask error handlers return `{error: ...}` JSON with 404/500/400.  No path
lets an exception escape as the handler's value. -/
theorem handlers_structured (url vid fid q : String)
    (fetched sf inf : Except String PyVal) (up : HttpResp) :
    WellFormedResult (get_video_info url fetched) ∧
    WellFormedResult (download_direct vid fid q sf inf up) ∧
    WellFormedResult (stream_video vid fid sf up) ∧
    WellFormedResult not_found ∧
    WellFormedResult server_error ∧
    WellFormedResult bad_request := by
  refine ⟨?_, ?_, ?_, ?_, ?_, ?_⟩
  · unfold get_video_info
    split
    · exact Or.inr (Or.inl ⟨400, _, Or.inl rfl, rfl, rfl⟩)
    · split
      · exact Or.inr (Or.inl ⟨400, _, Or.inl rfl, rfl, rfl⟩)
      · split
        · exact Or.inr (Or.inl ⟨500, _, Or.inr (Or.inr rfl), rfl, rfl⟩)
        · exact Or.inl ⟨_, rfl⟩
  · unfold download_direct
    cases hg : YouTubeRealDownloader.get_real_stream_url sf fid with
    | none => exact Or.inr (Or.inl ⟨500, _, Or.inr (Or.inr rfl), rfl, rfl⟩)
    | some si =>
      by_cases hu : pyTruthy si.url = true
      · simp only [hu, Bool.not_true]
        cases hts : title_str (YouTubeRealDownloader.get_video_info vid inf) vid with
        | ok ts => exact Or.inr (Or.inr ⟨_, _, rfl⟩)
        | error e => exact Or.inr (Or.inl ⟨500, _, Or.inr (Or.inr rfl), rfl, rfl⟩)
      · have hu' : pyTruthy si.url = false := by
          cases hx : pyTruthy si.url
          · rfl
          · exact absurd hx hu
        simp only [hu', Bool.not_false]
        exact Or.inr (Or.inl ⟨500, _, Or.inr (Or.inr rfl), rfl, rfl⟩)
  · unfold stream_video
    cases hg : YouTubeRealDownloader.get_real_stream_url sf fid with
    | none => exact Or.inr (Or.inl ⟨500, _, Or.inr (Or.inr rfl), rfl, rfl⟩)
    | some si =>
      by_cases hu : pyTruthy si.url = true
      · simp only [hu, Bool.not_true]
        exact Or.inr (Or.inr ⟨_, _, rfl⟩)
      · have hu' : pyTruthy si.url = false := by
          cases hx : pyTruthy si.url
          · rfl
          · exact absurd hx hu
        simp only [hu', Bool.not_false]
        exact Or.inr (Or.inl ⟨500, _, Or.inr (Or.inr rfl), rfl, rfl⟩)
  · exact Or.inr (Or.inl ⟨404, _, Or.inr (Or.inl rfl), rfl, rfl⟩)
  · exact Or.inr (Or.inl ⟨500, _, Or.inr (Or.inr rfl), rfl, rfl⟩)
  · exact Or.inr (Or.inl ⟨400, _, Or.inl rfl, rfl, rfl⟩)

/-- C8 (counterexample): a request for format id `"22"` against a resolved
list holding only format `"18"` makes `get_real_stream_url` return `None` and
`download_direct` answers 500 — not 404 — with
`"Could not get download URL"`. -/
theorem download_direct_missing_format_is_500 :
    download_direct "dQw4w9WgXcQ" "22" "720p"
        (Except.ok (pdict [("formats", plist
          [pdict [("format_id", pstr "18"), ("url", pstr "http://x")]])]))
        (Except.error "unused") ⟨200, []⟩
      = RouteResult.json 500 (errBody "Could not get download URL") ∧
    (download_direct "dQw4w9WgXcQ" "22" "720p"
        (Except.ok (pdict [("formats", plist
          [pdict [("format_id", pstr "18"), ("url", pstr "http://x")]])]))
        (Except.error "unused") ⟨200, []⟩).statusOf ≠ 404 := by
  constructor
  · rfl
  · decide

/-- C8 (amended): whenever the stream-URL resolution yields nothing — in
particular when the requested format id is absent from the resolved list —
the download endpoint responds HTTP 500 with the JSON error
`"Could not get download URL"`; the code has no 404 path for a missing
format. -/
theorem download_direct_missing_format (video_id format_id quality : String)
    (sf inf : Except String PyVal) (up : HttpResp)
    (h : YouTubeRealDownloader.get_real_stream_url sf format_id = none) :
    download_direct video_id format_id quality sf inf up
      = RouteResult.json 500 (errBody "Could not get download URL") := by
  unfold download_direct
  rw [h]

/-- C8 (witness): a fetch whose result holds no matching format gives the
500 error response. -/
theorem download_direct_missing_format_witness :
    download_direct "dQw4w9WgXcQ" "22" "720p" (Except.ok pnone)
        (Except.ok pnone) ⟨200, []⟩
      = RouteResult.json 500 (errBody "Could not get download URL") :=
  download_direct_missing_format "dQw4w9WgXcQ" "22" "720p" (Except.ok pnone)
    (Except.ok pnone) ⟨200, []⟩ rfl
